import Mathlib

/-
  Verification of the qgis_plugin_tools helper modules.

  Shallow embedding: host-side objects (network replies, expressions,
  layers, fields, Qt widgets) become explicit Lean data; host functions
  that this code merely calls (byte decoding with a named encoding,
  QgsWkbTypes.flatType, icon lookup, layer scopes) are quantified
  function parameters.  Python exceptions become result constructors.
  Request construction (URL query strings, user-agent headers, post
  bodies with random multipart boundaries) is host-side I/O: the host's
  blocking reply is taken as an input of the embedded functions.
-/

namespace QgsPluginTools

/-- Modelled from the spec: `bar_msg` lives in `tools/custom_logging.py`,
which is not among the provided sources.  Per the spec, failures are
surfaced as exceptions wrapping host-reported error strings shown in the
host message bar; `bar_msg` packages such a string as the bar message. -/
structure BarMsg where
  details : String
  deriving DecidableEq, Repr

/-- Modelled from the spec: wraps a host-reported error string as a bar message. -/
def bar_msg (details : String) : BarMsg := ⟨details⟩

/-- Modelled from the spec: `tr` lives in `tools/i18n.py`, not among the
provided sources; it translates a user-facing string via the host,
identity in the untranslated locale modelled here. -/
def tr (s : String) : String := s

/-- Index of the first occurrence of `sep` as a contiguous sublist of
`s`, as Python's `str.find` computes it. -/
def findSubIdx (sep : List Char) : List Char → Option Nat
  | [] => if sep.isPrefixOf [] then some 0 else none
  | c :: cs => if sep.isPrefixOf (c :: cs) then some 0 else (findSubIdx sep cs).map (· + 1)

/-- Fuel-driven worker for `pySplit`; `s.length + 1` fuel always
suffices because each found separator consumes at least one element. -/
def pySplitFuel (sep : List Char) : Nat → List Char → List (List Char)
  | 0, s => [s]
  | fuel + 1, s =>
    match findSubIdx sep s with
    | none => [s]
    | some i => s.take i :: pySplitFuel sep fuel (s.drop (i + sep.length))

/-- Python's `str.split(sep)` for a nonempty separator, on character
lists: the segments between consecutive non-overlapping occurrences of
`sep`, scanned from the left. -/
def pySplit (sep s : List Char) : List (List Char) :=
  if sep = [] then [s] else pySplitFuel sep (s.length + 1) s

/-- Python's `str.split(sep)` on strings. -/
def pySplitStr (sep s : String) : List String :=
  (pySplit sep.toList s.toList).map String.mk

/-- Python's `str.replace(pat, "")` (every occurrence removed), on
character lists. -/
def pyRemoveAll (pat s : List Char) : List Char :=
  (pySplit pat s).flatten

/-- The text after the first occurrence of `sep` in `s`, or `none` when
`sep` does not occur. -/
def suffixAfterFirst (sep s : List Char) : Option (List Char) :=
  match pySplit sep s with
  | [] => none
  | [_] => none
  | _ :: rest => some (List.intercalate sep rest)

/-- The text after the first occurrence of `sep` in `s`, on strings. -/
def textAfterFirst (sep s : String) : Option String :=
  (suffixAfterFirst sep.toList s.toList).map String.mk

namespace Network

/-- Module constant `ENCODING` of `tools/network.py`. -/
def ENCODING : String := "utf-8"

/-- The double-quote character checked by `request_raw`. -/
def doubleQuote : Char := Char.ofNat 34

/-- The single-quote character checked by `request_raw`. -/
def singleQuote : Char := Char.ofNat 39

/-- The host's blocking network reply (`QgsNetworkReplyContent`): error
code (`0` is `QNetworkReply.NetworkError.NoError`), Qt error string,
content bytes, and the raw `Content-Disposition` header bytes when the
reply carries that header. -/
structure Reply where
  error : Nat
  errorString : String
  content : List Nat
  contentDisposition : Option (List Nat)
  deriving DecidableEq, Repr

/-- Outcome of `request_raw`: the `QgsPluginNetworkException` raised on a
reply error (carrying the decoded error content or `None`, the host error
code and the bar message), the Python `IndexError` escaping from the
unguarded indexing in the default-name computation, or the returned pair
of content bytes and default file name. -/
inductive RRResult where
  | netExc (error : Nat) (message : Option String) (barMsg : BarMsg)
  | indexError
  | ok (content : List Nat) (defaultName : String)
  deriving DecidableEq, Repr

/-- `request_raw` of `tools/network.py`, from the point where the host's
blocking reply is in hand (request construction is host-side I/O).
`decode enc bs` is the host's `bytes.decode(enc)`.  On a reply error it
raises `QgsPluginNetworkException` with the decoded error content (or
`None` when the content is empty), the error code and
`bar_msg(reply.errorString())`; otherwise it computes the default file
name from the `Content-Disposition` header via
`split("filename=")[1]`, stripping the first and last characters when
the name starts with a quote.  The unguarded `[1]` and `[0]` indexings
raise `IndexError` when the split has no second part or that part is
empty. -/
def request_raw (decode : String → List Nat → String) (reply : Reply)
    (encoding : String := ENCODING) : RRResult :=
  if reply.error ≠ 0 then
    .netExc reply.error
      (if reply.content ≠ [] then some (decode "utf-8" reply.content) else none)
      (bar_msg reply.errorString)
  else
    match reply.contentDisposition with
    | none => .ok reply.content ""
    | some hdr =>
      match (pySplitStr "filename=" (decode encoding hdr))[1]? with
      | none => .indexError
      | some default_name =>
        match default_name.toList with
        | [] => .indexError
        | c :: cs =>
          if [doubleQuote, singleQuote].contains c then
            .ok reply.content (String.mk ((c :: cs).drop 1).dropLast)
          else .ok reply.content default_name

/-- `fetch_raw` forwards to `request_raw` with method `"get"`. -/
def fetch_raw (decode : String → List Nat → String) (reply : Reply)
    (encoding : String := ENCODING) : RRResult :=
  request_raw decode reply encoding

/-- `post_raw` forwards to `request_raw` with method `"post"`. -/
def post_raw (decode : String → List Nat → String) (reply : Reply)
    (encoding : String := ENCODING) : RRResult :=
  request_raw decode reply encoding

/-- Outcome of `fetch`/`post`: a propagated exception from the raw
request, or the decoded content string. -/
inductive FetchResult where
  | netExc (error : Nat) (message : Option String) (barMsg : BarMsg)
  | indexError
  | ok (s : String)
  deriving DecidableEq, Repr

/-- `fetch` of `tools/network.py`: `content.decode(ENCODING)` on the
content bytes returned by `fetch_raw` (note: the module constant
`ENCODING`, not the `encoding` argument). -/
def fetch (decode : String → List Nat → String) (reply : Reply)
    (encoding : String := ENCODING) : FetchResult :=
  match fetch_raw decode reply encoding with
  | .netExc e m b => .netExc e m b
  | .indexError => .indexError
  | .ok content _ => .ok (decode ENCODING content)

/-- `post` of `tools/network.py`: `content.decode(ENCODING)` on the
content bytes returned by `post_raw`. -/
def post (decode : String → List Nat → String) (reply : Reply)
    (encoding : String := ENCODING) : FetchResult :=
  match post_raw decode reply encoding with
  | .netExc e m b => .netExc e m b
  | .indexError => .indexError
  | .ok content _ => .ok (decode ENCODING content)

/-- Whether Python's `import requests` succeeded
(`REQUESTS_IS_AVAILABLE`) is an environment fact; it is a parameter of
the embedding. -/
structure Env where
  REQUESTS_IS_AVAILABLE : Bool
  deriving DecidableEq, Repr

/-- The response seen by the `requests` branch of `download_to_file`:
whether `raise_for_status()` passes, the status code and error text, the
`Content-Disposition` header value when present (already a decoded
string in `requests`), and the raw content bytes. -/
structure HttpResponse where
  statusOk : Bool
  statusCode : Nat
  text : String
  contentDisposition : Option String
  content : List Nat
  deriving DecidableEq, Repr

/-- The matches of Python's `re.findall("filename=(.+)", s)`: per line
(`.` does not cross a newline), the greedy nonempty text after the first
`filename=` to the end of the line. -/
def findall_filename (s : String) : List String :=
  (pySplit [Char.ofNat 10] s.toList).filterMap (fun line =>
    match suffixAfterFirst ("filename=".toList) line with
    | none => none
    | some r => if r = [] then none else some (String.mk r))

/-- A file path `Path(output_dir, out_name)` as directory plus name. -/
structure OutPath where
  dir : String
  name : String
  deriving DecidableEq, Repr

/-- The url-derived fallback name of `get_output`: the url with the
scheme text removed; when the last `/`-segment is longer than two
characters, just that segment. -/
def url_derived_name (url : String) : String :=
  let stripped := pyRemoveAll ("https://".toList) (pyRemoveAll ("http://".toList) url.toList)
  let out_name := stripped
  let lastSeg := (pySplit [Char.ofNat 47] out_name).getLastD []
  if lastSeg.length > 2 then String.mk lastSeg else String.mk out_name

/-- The inner `get_output` of `download_to_file`: `output_name` when
given, else the non-empty default file name, else a name derived from
the url. -/
def get_output (url : String) (output_dir : String) (output_name : Option String)
    (default_filename : String) : OutPath :=
  match output_name with
  | some n => ⟨output_dir, n⟩
  | none =>
    if default_filename ≠ "" then ⟨output_dir, default_filename⟩
    else ⟨output_dir, url_derived_name url⟩

/-- Declared from the spec sentence for the refinement comparison: the
output path is `output_name` if given, else the header filename if
non-empty, else a name derived from the url (the derivation itself is a
parameter, the spec does not fix it). -/
def spec_output_path (urlName : String → String) (url : String) (output_dir : String)
    (output_name : Option String) (filename : String) : OutPath :=
  match output_name with
  | some n => ⟨output_dir, n⟩
  | none => if filename ≠ "" then ⟨output_dir, filename⟩ else ⟨output_dir, urlName url⟩

/-- Outcome of `download_to_file`: the `QgsPluginNetworkException`
raised for a bad status or a requests failure, an exception propagated
from `fetch_raw`, or the bytes written to the computed path, which is
returned. -/
inductive DownloadResult where
  | statusExc (message : String) (barMsg : BarMsg)
  | requestExc (message : String) (barMsg : BarMsg)
  | netExc (error : Nat) (message : Option String) (barMsg : BarMsg)
  | indexError
  | written (output : OutPath) (bytes : List Nat)
  deriving DecidableEq, Repr

/-- The `requests` branch of `download_to_file`: raise on a bad status,
else extract the first `filename=` match from the `Content-Disposition`
header (empty string when the header is absent or matches nothing),
compute the output path with `get_output` and stream the content there. -/
def download_requests_branch (url : String) (output_dir : String)
    (output_name : Option String) (resp : HttpResponse) : DownloadResult :=
  if ¬ resp.statusOk then
    .statusExc (tr ("Request failed with status code " ++ toString resp.statusCode))
      (bar_msg resp.text)
  else
    let default_filenames := findall_filename (resp.contentDisposition.getD "")
    let default_filename := default_filenames.headD ""
    let output := get_output url output_dir output_name default_filename
    .written output resp.content

/-- The `fetch_raw` branch of `download_to_file`: fetch the bytes and
default name via the host's blocking client, compute the output path
with `get_output` and write the bytes there. -/
def download_fetch_branch (decode : String → List Nat → String) (reply : Reply)
    (url : String) (output_dir : String) (output_name : Option String)
    (encoding : String) : DownloadResult :=
  match fetch_raw decode reply encoding with
  | .netExc e m b => .netExc e m b
  | .indexError => .indexError
  | .ok content default_filename =>
    .written (get_output url output_dir output_name default_filename) content

/-- `download_to_file` of `tools/network.py`: the `requests` branch when
`use_requests_if_available` holds and `requests` is importable, the
`fetch_raw` branch otherwise. -/
def download_to_file (env : Env) (decode : String → List Nat → String)
    (resp : HttpResponse) (reply : Reply) (url : String) (output_dir : String)
    (output_name : Option String := none) (use_requests_if_available : Bool := true)
    (encoding : String := ENCODING) : DownloadResult :=
  if use_requests_if_available && env.REQUESTS_IS_AVAILABLE then
    download_requests_branch url output_dir output_name resp
  else
    download_fetch_branch decode reply url output_dir output_name encoding

/-- A reply's `Content-Disposition` header, when present, decodes to a
text in which `filename=` is followed by a nonempty name: the condition
under which the default-name computation of `request_raw` does not hit
an unguarded index. -/
def header_well_formed (decode : String → List Nat → String) (encoding : String)
    (reply : Reply) : Prop :=
  ∀ hdr, reply.contentDisposition = some hdr →
    ∃ dn, (pySplitStr "filename=" (decode encoding hdr))[1]? = some dn ∧ dn ≠ ""

/-- An ASCII byte decoding, used to instantiate the quantified host
`decode` function on concrete inputs. -/
def decodeASCII : String → List Nat → String :=
  fun _ bs => String.mk (bs.map Char.ofNat)

/-- ASCII bytes of a string, to build concrete headers. -/
def asciiBytes (s : String) : List Nat :=
  s.toList.map Char.toNat

end Network

namespace LoggerProcessing

/-- The state of a `LoggerProcessingFeedBack` instance
(`tools/logger_processing.py`): the backing `_last` of the `last`
property, the `use_logger` flag, and the per-category last messages,
all `None` after `__init__`. -/
structure LoggerProcessingFeedBack where
  _last : Option String
  use_logger : Bool
  last_progress_text : Option String
  last_push_info : Option String
  last_command_info : Option String
  last_debug_info : Option String
  last_console_info : Option String
  last_report_error : Option String
  deriving DecidableEq, Repr

/-- `LoggerProcessingFeedBack.__init__`. -/
def LoggerProcessingFeedBack.init (use_logger : Bool := false) : LoggerProcessingFeedBack :=
  { _last := none, use_logger := use_logger, last_progress_text := none,
    last_push_info := none, last_command_info := none, last_debug_info := none,
    last_console_info := none, last_report_error := none }

/-- The `last` property. -/
def LoggerProcessingFeedBack.last (fb : LoggerProcessingFeedBack) : Option String :=
  fb._last

/-- `setProgressText`; the optional `LOGGER` call has no effect on the
recorded state. -/
def LoggerProcessingFeedBack.setProgressText (fb : LoggerProcessingFeedBack)
    (text : String) : LoggerProcessingFeedBack :=
  { fb with _last := some text, last_progress_text := some text }

/-- `pushInfo`. -/
def LoggerProcessingFeedBack.pushInfo (fb : LoggerProcessingFeedBack)
    (text : String) : LoggerProcessingFeedBack :=
  { fb with _last := some text, last_push_info := some text }

/-- `pushCommandInfo`. -/
def LoggerProcessingFeedBack.pushCommandInfo (fb : LoggerProcessingFeedBack)
    (text : String) : LoggerProcessingFeedBack :=
  { fb with _last := some text, last_command_info := some text }

/-- `pushDebugInfo`. -/
def LoggerProcessingFeedBack.pushDebugInfo (fb : LoggerProcessingFeedBack)
    (text : String) : LoggerProcessingFeedBack :=
  { fb with _last := some text, last_debug_info := some text }

/-- `pushConsoleInfo`. -/
def LoggerProcessingFeedBack.pushConsoleInfo (fb : LoggerProcessingFeedBack)
    (text : String) : LoggerProcessingFeedBack :=
  { fb with _last := some text, last_console_info := some text }

/-- `reportError`. -/
def LoggerProcessingFeedBack.reportError (fb : LoggerProcessingFeedBack)
    (text : String) (fatalError : Bool := false) : LoggerProcessingFeedBack :=
  { fb with _last := some text, last_report_error := some text }

end LoggerProcessing

namespace Layers

/-- A flat wkb geometry type of the host's `QgsWkbTypes.Type`
enumeration; `QgsWkbTypes.flatType` maps every wkb type (including Z, M,
ZM and 25D variants) into these, and is a quantified host function in
the theorems below. -/
inductive WkbType where
  | Unknown | Point | LineString | Polygon | Triangle | MultiPoint
  | MultiLineString | MultiPolygon | GeometryCollection | CircularString
  | CompoundCurve | CurvePolygon | MultiCurve | MultiSurface | NoGeometry
  deriving DecidableEq, Repr

/-- Module constant `POINT_TYPES` of `tools/layers.py`. -/
def POINT_TYPES : List WkbType := [.Point, .MultiPoint]

/-- Module constant `LINE_TYPES`. -/
def LINE_TYPES : List WkbType := [.LineString, .MultiLineString]

/-- Module constant `POLYGON_TYPES`. -/
def POLYGON_TYPES : List WkbType := [.Polygon, .MultiPolygon, .CurvePolygon]

/-- The `LayerType` enumeration of `tools/layers.py`. -/
inductive LayerType where
  | Point | Line | Polygon | Unknown
  deriving DecidableEq, Repr

/-- The `wkb_types` entry of each `LayerType` member's value. -/
def LayerType.wkb_types : LayerType → List WkbType
  | .Point => POINT_TYPES
  | .Line => LINE_TYPES
  | .Polygon => POLYGON_TYPES
  | .Unknown => []

/-- Iteration order of `for l_type in LayerType` (declaration order). -/
def layerTypeMembers : List LayerType := [.Point, .Line, .Polygon, .Unknown]

/-- `LayerType.from_wkb_type`: the first member whose `wkb_types`
contains the flat type of the argument, `Unknown` by default.
`flatType` is the host's `QgsWkbTypes.flatType`. -/
def LayerType.from_wkb_type (flatType : WkbType → WkbType) (wkb_type : WkbType) : LayerType :=
  (layerTypeMembers.find? (fun l_type => l_type.wkb_types.contains (flatType wkb_type))).getD
    .Unknown

/-- A host expression-context scope; its contents are host-side, only
identity matters to this code. -/
structure ContextScope where
  scopeId : Nat
  deriving DecidableEq, Repr

/-- A host feature, identity only. -/
structure Feature where
  featureId : Nat
  deriving DecidableEq, Repr

/-- A host map layer, identity only. -/
structure MapLayer where
  layerId : Nat
  deriving DecidableEq, Repr

/-- The expression context assembled by `evaluate_expressions`: the
appended scopes and the optionally set feature. -/
structure ExprContext where
  scopes : List ContextScope
  feature : Option Feature
  deriving DecidableEq, Repr

/-- The value of a host expression: `Union[bool, int, str, float, None]`
(the float payload is symbolic). -/
inductive EValue where
  | boolean (b : Bool)
  | int (i : Int)
  | str (s : String)
  | float (q : ℚ)
  | none
  deriving DecidableEq, Repr

/-- A host `QgsExpression` after evaluation: the parser/eval error flags
and strings the code inspects, and the host evaluation as a function of
the context. -/
structure Expression where
  hasParserError : Bool
  parserErrorString : String
  hasEvalError : Bool
  evalErrorString : String
  evaluate : ExprContext → EValue

/-- Outcome of `evaluate_expressions`: the raised
`QgsPluginExpressionException` with its bar message, or the value. -/
inductive EvalResult where
  | exc (barMsg : BarMsg)
  | ok (value : EValue)

/-- The context assembly of `evaluate_expressions`: the given scopes
(empty when `None`), the layer scope appended when a layer is given
(`layerScope` is the host's `QgsExpressionContextUtils.layerScope`), and
the feature set when given. -/
def assemble_context (layerScope : MapLayer → ContextScope) (feature : Option Feature)
    (layer : Option MapLayer) (context_scopes : Option (List ContextScope)) : ExprContext :=
  let scopes := context_scopes.getD []
  let scopes := match layer with
    | some l => scopes ++ [layerScope l]
    | none => scopes
  { scopes := scopes, feature := feature }

/-- `evaluate_expressions` of `tools/layers.py`: evaluate in the
assembled context, then raise on a parser error, then on an eval error,
else return the value. -/
def evaluate_expressions (layerScope : MapLayer → ContextScope) (exp : Expression)
    (feature : Option Feature := none) (layer : Option MapLayer := none)
    (context_scopes : Option (List ContextScope) := none) : EvalResult :=
  let context := assemble_context layerScope feature layer context_scopes
  let value := exp.evaluate context
  if exp.hasParserError then .exc (bar_msg exp.parserErrorString)
  else if exp.hasEvalError then .exc (bar_msg exp.evalErrorString)
  else .ok value

end Layers

namespace Fields

/-- The `QVariant.Type` values distinguished by `tools/fields.py`, plus
representatives of the remaining enumeration values reaching the final
`else`. -/
inductive QVariantType where
  | Invalid | Bool | Int | UInt | LongLong | ULongLong | Double | Char
  | Map | List | String | ByteArray | Date | Time | DateTime | Url
  deriving DecidableEq, Repr

/-- The widget returned by `widget_for_field`, abstracted to its class
and the attributes the function sets. -/
inductive Widget where
  | qCheckBox
  | qgsSpinBox (maximum : Int)
  | qgsDoubleSpinBox (maximum : Int)
  | qDateEdit
  | qgsDateTimeEdit
  | qComboBox (editable : Bool)
  deriving DecidableEq, Repr

/-- `widget_for_field` of `tools/fields.py`: the pre-built editable
combo box is returned for `String`, `ByteArray` and the final `else`. -/
def widget_for_field (field_type : QVariantType) : Widget :=
  let q_combo_box : Widget := .qComboBox true
  if field_type = .Bool then .qCheckBox
  else if [QVariantType.Int, .UInt, .LongLong, .ULongLong].contains field_type then
    .qgsSpinBox 2147483647
  else if field_type = .Double then .qgsDoubleSpinBox 2147483647
  else if field_type = .String then q_combo_box
  else if field_type = .Date then .qDateEdit
  else if field_type = .DateTime then .qgsDateTimeEdit
  else if field_type = .Time then .qgsDateTimeEdit
  else if field_type = .ByteArray then q_combo_box
  else q_combo_box

end Fields

namespace Decorations

/-- A Python value as far as the wrapper inspects arguments: only
equality with `False` matters. -/
inductive PyVal where
  | boolean (b : Bool)
  | str (s : String)
  | int (i : Int)
  | obj (o : Nat)
  | none
  deriving DecidableEq, Repr

/-- Outcome of calling the wrapped function: a normal return, a raised
`QgsPluginException` carrying its `bar_msg`, or any other exception. -/
inductive CallResult where
  | ok
  | raisePlugin (barMsg : BarMsg)
  | raiseOther (desc : String)
  deriving DecidableEq, Repr

/-- Modelled from the spec: `MsgBar.exception` lives in
`tools/messages.py`, not among the provided sources; per the spec,
exceptions are displayed via a host message-bar adapter.  A call is
recorded with either the plugin exception's own bar message or the
generic title and the exception. -/
inductive MsgBarCall where
  | exceptionWithBarMsg (barMsg : BarMsg)
  | unhandled (title : String) (desc : String)
  deriving DecidableEq, Repr

/-- Outcome of the wrapper: it returns `None`, possibly after routing an
exception to the message bar; `propagated` is the (never produced)
possibility of an exception escaping. -/
inductive WrapperResult where
  | normal (msgbar : Option MsgBarCall)
  | propagated (desc : String)
  deriving DecidableEq, Repr

/-- The `args[1:] != (False,)` adjustment: Qt injects `False` into some
signals, so a lone trailing `False` past the first argument is dropped. -/
def effective_args (args : List PyVal) : List PyVal :=
  if args.drop 1 = [.boolean false] then args.dropLast else args

/-- `log_if_fails` of `tools/decorations.py`, applied to `fn` and the
call arguments: call `fn` on the adjusted arguments, route a
`QgsPluginException` to `MsgBar.exception` with its bar message, any
other exception with the generic translated title, and return `None`. -/
def log_if_fails (fn : List PyVal → CallResult) (args : List PyVal) : WrapperResult :=
  match fn (effective_args args) with
  | .ok => .normal none
  | .raisePlugin bm => .normal (some (.exceptionWithBarMsg bm))
  | .raiseOther d => .normal (some (.unhandled (tr "Unhandled exception occurred") d))

end Decorations

namespace ListFields

/-- A host field: name and alias as `set_layer` reads them. -/
structure QgsField where
  name : String
  fieldAlias : String
  deriving DecidableEq, Repr

/-- A host vector layer as far as this widget reads it: its fields. -/
structure VectorLayer where
  fields : List QgsField
  deriving DecidableEq, Repr

/-- `QgsFields.indexFromName`: index of the first field with the given
name, `-1` when absent. -/
def indexFromName (fields : List QgsField) (name : String) : Int :=
  match fields.findIdx? (fun f => f.name = name) with
  | some i => (i : Int)
  | none => -1

/-- A `QListWidgetItem` of the widget: text, user-role data, the icon
set from `iconForField` when the index was non-negative, and the Qt
selected flag. -/
structure ListItem where
  text : String
  userData : String
  icon : Option Nat
  selected : Bool
  deriving DecidableEq, Repr

/-- The `ListFieldsSelection` widget state: its items in order and the
stored layer. -/
structure ListFieldsSelection where
  items : List ListItem
  layer : Option VectorLayer
  deriving DecidableEq, Repr

/-- `ListFieldsSelection.set_layer` (`widgets/list_fields_selection.py`):
clear, then one item per field, text `name (alias)` when the alias is
non-empty, user-role data the field name, icon from the host's
`iconForField` at the field's index when non-negative.  A fresh
`QListWidgetItem` is unselected. -/
def set_layer (iconForField : Int → Nat) (w : ListFieldsSelection)
    (layer : VectorLayer) : ListFieldsSelection :=
  { layer := some layer,
    items := layer.fields.map (fun field =>
      let text := if field.fieldAlias ≠ "" then
          field.name ++ " (" ++ field.fieldAlias ++ ")"
        else field.name
      let index := indexFromName layer.fields field.name
      { text := text, userData := field.name,
        icon := if index ≥ 0 then some (iconForField index) else none,
        selected := false }) }

/-- `ListFieldsSelection.set_selection`: each item becomes selected
exactly when its user-role data is a member of `fields`. -/
def set_selection (w : ListFieldsSelection) (fields : List String) : ListFieldsSelection :=
  { w with items := w.items.map (fun item =>
      { item with selected := fields.contains item.userData }) }

/-- `ListFieldsSelection.selection`: the user-role data of the selected
items, in item order. -/
def selection (w : ListFieldsSelection) : List String :=
  (w.items.filter (fun item => item.selected)).map (fun item => item.userData)

/-- The non-selection state of an item, for stating that `set_selection`
changes nothing else. -/
def itemRest (item : ListItem) : String × String × Option Nat :=
  (item.text, item.userData, item.icon)

end ListFields

/-! Helper lemmas, shared by the claim theorems below. -/

namespace Network

theorem request_raw_of_error_ne (decode : String → List Nat → String) (reply : Reply)
    (encoding : String) (h : reply.error ≠ 0) :
    request_raw decode reply encoding =
      .netExc reply.error
        (if reply.content ≠ [] then some (decode "utf-8" reply.content) else none)
        (bar_msg reply.errorString) := by
  unfold request_raw
  rw [if_pos h]

theorem request_raw_of_error_zero (decode : String → List Nat → String) (reply : Reply)
    (encoding : String) (h : reply.error = 0) :
    request_raw decode reply encoding = .indexError ∨
      ∃ dn, request_raw decode reply encoding = .ok reply.content dn := by
  unfold request_raw
  rw [if_neg (by simp [h])]
  split
  · exact Or.inr ⟨"", rfl⟩
  · split
    · exact Or.inl rfl
    · split
      · exact Or.inl rfl
      · split
        · exact Or.inr ⟨_, rfl⟩
        · exact Or.inr ⟨_, rfl⟩

theorem request_raw_netExc_iff (decode : String → List Nat → String) (reply : Reply)
    (encoding : String) :
    (∃ e m b, request_raw decode reply encoding = .netExc e m b) ↔ reply.error ≠ 0 := by
  constructor
  · rintro ⟨e, m, b, hx⟩ he
    rcases request_raw_of_error_zero decode reply encoding he with h2 | ⟨dn, h2⟩ <;>
      rw [hx] at h2 <;> simp at h2
  · intro h
    exact ⟨_, _, _, request_raw_of_error_ne decode reply encoding h⟩

theorem request_raw_ok_content (decode : String → List Nat → String) (reply : Reply)
    (encoding : String) (c : List Nat) (dn : String)
    (h : request_raw decode reply encoding = .ok c dn) : c = reply.content := by
  by_cases he : reply.error = 0
  · rcases request_raw_of_error_zero decode reply encoding he with h2 | ⟨dn', h2⟩ <;>
      rw [h] at h2
    · simp at h2
    · exact (RRResult.ok.injEq _ _ _ _ ▸ h2).1
  · have h2 := request_raw_of_error_ne decode reply encoding he
    rw [h] at h2
    simp at h2

theorem fetch_netExc_iff (decode : String → List Nat → String) (reply : Reply)
    (encoding : String) :
    (∃ e m b, fetch decode reply encoding = .netExc e m b) ↔ reply.error ≠ 0 := by
  unfold fetch fetch_raw
  constructor
  · rintro ⟨e, m, b, hx⟩
    rw [← request_raw_netExc_iff decode reply encoding]
    revert hx
    cases hr : request_raw decode reply encoding with
    | netExc e' m' b' => exact fun _ => ⟨e', m', b', rfl⟩
    | indexError => intro hx; simp at hx
    | ok c dn => intro hx; simp at hx
  · intro h
    rw [request_raw_of_error_ne decode reply encoding h]
    exact ⟨_, _, _, rfl⟩

theorem post_netExc_iff (decode : String → List Nat → String) (reply : Reply)
    (encoding : String) :
    (∃ e m b, post decode reply encoding = .netExc e m b) ↔ reply.error ≠ 0 := by
  unfold post post_raw
  constructor
  · rintro ⟨e, m, b, hx⟩
    rw [← request_raw_netExc_iff decode reply encoding]
    revert hx
    cases hr : request_raw decode reply encoding with
    | netExc e' m' b' => exact fun _ => ⟨e', m', b', rfl⟩
    | indexError => intro hx; simp at hx
    | ok c dn => intro hx; simp at hx
  · intro h
    rw [request_raw_of_error_ne decode reply encoding h]
    exact ⟨_, _, _, rfl⟩

theorem fetch_ok_decodes (decode : String → List Nat → String) (reply : Reply)
    (encoding : String) (s : String) (h : fetch decode reply encoding = .ok s) :
    s = decode ENCODING reply.content := by
  unfold fetch fetch_raw at h
  revert h
  cases hr : request_raw decode reply encoding with
  | netExc e m b => intro h; simp at h
  | indexError => intro h; simp at h
  | ok c dn =>
    intro h
    have hc := request_raw_ok_content decode reply encoding c dn hr
    simp only [] at h
    rw [← (FetchResult.ok.injEq _ _ ▸ h : decode ENCODING c = s), hc]

theorem post_ok_decodes (decode : String → List Nat → String) (reply : Reply)
    (encoding : String) (s : String) (h : post decode reply encoding = .ok s) :
    s = decode ENCODING reply.content := by
  unfold post post_raw at h
  revert h
  cases hr : request_raw decode reply encoding with
  | netExc e m b => intro h; simp at h
  | indexError => intro h; simp at h
  | ok c dn =>
    intro h
    have hc := request_raw_ok_content decode reply encoding c dn hr
    simp only [] at h
    rw [← (FetchResult.ok.injEq _ _ ▸ h : decode ENCODING c = s), hc]

end Network

/-! Claim theorems. -/

open Network in
/-- C1 (amended): for every host byte decoding, blocking reply and
encoding argument, `request_raw` raises `QgsPluginNetworkException` if
and only if the reply reports a network error, and the raised exception
carries the host error code and the host error string in its bar
message; when no error is reported and the `Content-Disposition` header,
if present, has a nonempty `filename=` part, it returns the reply's
content bytes together with a default file name; `fetch_raw` and
`post_raw` are literal forwards, and `fetch` and `post` raise the same
exception under the same condition. -/
theorem network_request_raw_error_iff_amended (decode : String → List Nat → String)
    (reply : Reply) (encoding : String) :
    ((∃ e m b, request_raw decode reply encoding = .netExc e m b) ↔ reply.error ≠ 0) ∧
    (reply.error ≠ 0 → ∃ m, request_raw decode reply encoding =
      .netExc reply.error m (bar_msg reply.errorString)) ∧
    (reply.error = 0 → header_well_formed decode encoding reply →
      ∃ dn, request_raw decode reply encoding = .ok reply.content dn) ∧
    (fetch_raw decode reply encoding = request_raw decode reply encoding) ∧
    (post_raw decode reply encoding = request_raw decode reply encoding) ∧
    ((∃ e m b, fetch decode reply encoding = .netExc e m b) ↔ reply.error ≠ 0) ∧
    ((∃ e m b, post decode reply encoding = .netExc e m b) ↔ reply.error ≠ 0) := by
  refine ⟨request_raw_netExc_iff decode reply encoding, ?_, ?_, rfl, rfl,
    fetch_netExc_iff decode reply encoding, post_netExc_iff decode reply encoding⟩
  · intro h
    exact ⟨_, request_raw_of_error_ne decode reply encoding h⟩
  · intro he hw
    unfold request_raw
    rw [if_neg (by simp [he])]
    split
    · exact ⟨"", rfl⟩
    · rename_i hdr heq
      obtain ⟨dn, hdn, hne⟩ := hw hdr heq
      split
      · rename_i h2
        rw [hdn] at h2
        cases h2
      · rename_i dn' h2
        rw [hdn] at h2
        have h3 := Option.some.inj h2
        subst h3
        split
        · rename_i hl
          exact absurd (String.ext (by simpa using hl)) hne
        · split
          · exact ⟨_, rfl⟩
          · exact ⟨_, rfl⟩

open Network in
/-- Witness for C1: a reply with no error and no `Content-Disposition`
header returns its content bytes with some default name. -/
theorem network_request_raw_error_iff_witness :
    ∃ dn, request_raw decodeASCII ⟨0, "", [1, 2], none⟩ ENCODING = .ok [1, 2] dn :=
  (network_request_raw_error_iff_amended decodeASCII ⟨0, "", [1, 2], none⟩ ENCODING).2.2.1
    rfl (fun hdr h => Option.noConfusion h)

open Network in
/-- Counterexample for C1 as stated: a reply with no network error whose
`Content-Disposition` header ends right after `filename=` makes
`request_raw` raise `IndexError` instead of returning the content bytes
with a default file name. -/
theorem network_request_raw_counterexample :
    (Reply.mk 0 "" [104, 105] (some (asciiBytes "attachment; filename="))).error = 0 ∧
    request_raw decodeASCII
      ⟨0, "", [104, 105], some (asciiBytes "attachment; filename=")⟩ ENCODING
      = .indexError := by
  exact ⟨rfl, by decide⟩

open Network in
/-- C9 (amended): on a successful reply carrying a `Content-Disposition`
header, the default name is the second part of splitting the decoded
header on `filename=` — the text after the first `filename=` truncated
at the next occurrence, when one exists; when that part begins with a
single or double quote its first and last characters are stripped; and
when the split has no second part, or that part is empty, the unguarded
indexing raises `IndexError` instead of returning. -/
theorem network_default_name_extraction_amended (decode : String → List Nat → String)
    (reply : Reply) (encoding : String) (hdr : List Nat)
    (he : reply.error = 0) (hh : reply.contentDisposition = some hdr) :
    ((pySplitStr "filename=" (decode encoding hdr))[1]? = none →
      request_raw decode reply encoding = .indexError) ∧
    ((pySplitStr "filename=" (decode encoding hdr))[1]? = some "" →
      request_raw decode reply encoding = .indexError) ∧
    (∀ dn c cs, (pySplitStr "filename=" (decode encoding hdr))[1]? = some dn →
      dn.toList = c :: cs →
      ([doubleQuote, singleQuote].contains c = true →
        request_raw decode reply encoding =
          .ok reply.content (String.mk ((c :: cs).drop 1).dropLast)) ∧
      ([doubleQuote, singleQuote].contains c = false →
        request_raw decode reply encoding = .ok reply.content dn)) := by
  have key : request_raw decode reply encoding =
      (match (pySplitStr "filename=" (decode encoding hdr))[1]? with
       | none => RRResult.indexError
       | some default_name =>
         match default_name.toList with
         | [] => RRResult.indexError
         | c :: cs =>
           if [doubleQuote, singleQuote].contains c then
             .ok reply.content (String.mk ((c :: cs).drop 1).dropLast)
           else .ok reply.content default_name) := by
    unfold request_raw
    rw [if_neg (by simp [he]), hh]
  refine ⟨?_, ?_, ?_⟩
  · intro h1
    rw [key, h1]
  · intro h1
    rw [key, h1]
    rfl
  · intro dn c cs h1 h2
    rw [key, h1]
    constructor
    · intro hq
      have : (match dn.toList with
          | [] => RRResult.indexError
          | c :: cs =>
            if [doubleQuote, singleQuote].contains c then
              RRResult.ok reply.content (String.mk ((c :: cs).drop 1).dropLast)
            else .ok reply.content dn) =
          .ok reply.content (String.mk ((c :: cs).drop 1).dropLast) := by
        rw [h2]
        simp only [hq, if_true]
      exact this
    · intro hq
      have : (match dn.toList with
          | [] => RRResult.indexError
          | c :: cs =>
            if [doubleQuote, singleQuote].contains c then
              RRResult.ok reply.content (String.mk ((c :: cs).drop 1).dropLast)
            else .ok reply.content dn) = .ok reply.content dn := by
        rw [h2]
        simp only [hq, Bool.false_eq_true, if_false]
      exact this

open Network in
/-- Witness for C9: a reply whose header reads `filename=data.bin`
returns the default name `data.bin` unchanged. -/
theorem network_default_name_extraction_witness :
    request_raw decodeASCII ⟨0, "", [], some (asciiBytes "filename=data.bin")⟩ ENCODING
      = .ok [] "data.bin" :=
  ((network_default_name_extraction_amended decodeASCII
      ⟨0, "", [], some (asciiBytes "filename=data.bin")⟩ ENCODING
      (asciiBytes "filename=data.bin") rfl rfl).2.2
    "data.bin" (Char.ofNat 100) "ata.bin".toList (by decide) (by decide)).2 (by decide)

open Network in
/-- Counterexample for C9 as stated: when `filename=` occurs twice in
the header, the code returns the text up to the second occurrence, not
the text after the first one. -/
theorem network_default_name_counterexample :
    request_raw decodeASCII
      ⟨0, "", [], some (asciiBytes "filename=afilename=b")⟩ ENCODING = .ok [] "a" ∧
    textAfterFirst "filename=" "filename=afilename=b" = some "afilename=b" ∧
    ("a" : String) ≠ "afilename=b" := by
  refine ⟨by decide, by decide, by decide⟩

open Network in
/-- C8: for every host decoding, reply and encoding argument, a string
returned by `fetch` is the content bytes decoded with the module
constant `ENCODING` (`"utf-8"`), not with the supplied `encoding`
argument, so the decoding of the returned string does not depend on that
argument; `post` behaves the same way. -/
theorem network_fetch_post_decode_constant (decode : String → List Nat → String)
    (reply : Reply) (encoding : String) :
    (∀ s, fetch decode reply encoding = .ok s → s = decode ENCODING reply.content) ∧
    (∀ s, post decode reply encoding = .ok s → s = decode ENCODING reply.content) ∧
    (∀ encoding₂ s s₂, fetch decode reply encoding = .ok s →
      fetch decode reply encoding₂ = .ok s₂ → s = s₂) ∧
    (∀ encoding₂ s s₂, post decode reply encoding = .ok s →
      post decode reply encoding₂ = .ok s₂ → s = s₂) := by
  refine ⟨fun s h => fetch_ok_decodes decode reply encoding s h,
    fun s h => post_ok_decodes decode reply encoding s h, ?_, ?_⟩
  · intro encoding₂ s s₂ h h₂
    rw [fetch_ok_decodes decode reply encoding s h,
      fetch_ok_decodes decode reply encoding₂ s₂ h₂]
  · intro encoding₂ s s₂ h h₂
    rw [post_ok_decodes decode reply encoding s h,
      post_ok_decodes decode reply encoding₂ s₂ h₂]

open Network in
/-- Witness for C8: a reply with content bytes `hi` fetched with the
encoding argument `"latin-1"` still decodes with the module constant. -/
theorem network_fetch_post_decode_constant_witness :
    ("hi" : String) = decodeASCII ENCODING [104, 105] :=
  (network_fetch_post_decode_constant decodeASCII ⟨0, "", [104, 105], none⟩ "latin-1").1
    "hi" (by decide)

open LoggerProcessing in
/-- C2: each of the six feedback methods records its text in its own
category's `last_*` attribute and in the `last` property, and leaves the
other five categories' `last_*` attributes unchanged. -/
theorem logger_feedback_last_message_per_category (fb : LoggerProcessingFeedBack)
    (t : String) :
    ((fb.setProgressText t).last_progress_text = some t ∧ (fb.setProgressText t).last = some t ∧
      (fb.setProgressText t).last_push_info = fb.last_push_info ∧
      (fb.setProgressText t).last_command_info = fb.last_command_info ∧
      (fb.setProgressText t).last_debug_info = fb.last_debug_info ∧
      (fb.setProgressText t).last_console_info = fb.last_console_info ∧
      (fb.setProgressText t).last_report_error = fb.last_report_error) ∧
    ((fb.pushInfo t).last_push_info = some t ∧ (fb.pushInfo t).last = some t ∧
      (fb.pushInfo t).last_progress_text = fb.last_progress_text ∧
      (fb.pushInfo t).last_command_info = fb.last_command_info ∧
      (fb.pushInfo t).last_debug_info = fb.last_debug_info ∧
      (fb.pushInfo t).last_console_info = fb.last_console_info ∧
      (fb.pushInfo t).last_report_error = fb.last_report_error) ∧
    ((fb.pushCommandInfo t).last_command_info = some t ∧ (fb.pushCommandInfo t).last = some t ∧
      (fb.pushCommandInfo t).last_progress_text = fb.last_progress_text ∧
      (fb.pushCommandInfo t).last_push_info = fb.last_push_info ∧
      (fb.pushCommandInfo t).last_debug_info = fb.last_debug_info ∧
      (fb.pushCommandInfo t).last_console_info = fb.last_console_info ∧
      (fb.pushCommandInfo t).last_report_error = fb.last_report_error) ∧
    ((fb.pushDebugInfo t).last_debug_info = some t ∧ (fb.pushDebugInfo t).last = some t ∧
      (fb.pushDebugInfo t).last_progress_text = fb.last_progress_text ∧
      (fb.pushDebugInfo t).last_push_info = fb.last_push_info ∧
      (fb.pushDebugInfo t).last_command_info = fb.last_command_info ∧
      (fb.pushDebugInfo t).last_console_info = fb.last_console_info ∧
      (fb.pushDebugInfo t).last_report_error = fb.last_report_error) ∧
    ((fb.pushConsoleInfo t).last_console_info = some t ∧ (fb.pushConsoleInfo t).last = some t ∧
      (fb.pushConsoleInfo t).last_progress_text = fb.last_progress_text ∧
      (fb.pushConsoleInfo t).last_push_info = fb.last_push_info ∧
      (fb.pushConsoleInfo t).last_command_info = fb.last_command_info ∧
      (fb.pushConsoleInfo t).last_debug_info = fb.last_debug_info ∧
      (fb.pushConsoleInfo t).last_report_error = fb.last_report_error) ∧
    ((fb.reportError t).last_report_error = some t ∧ (fb.reportError t).last = some t ∧
      (fb.reportError t).last_progress_text = fb.last_progress_text ∧
      (fb.reportError t).last_push_info = fb.last_push_info ∧
      (fb.reportError t).last_command_info = fb.last_command_info ∧
      (fb.reportError t).last_debug_info = fb.last_debug_info ∧
      (fb.reportError t).last_console_info = fb.last_console_info) := by
  refine ⟨?_, ?_, ?_, ?_, ?_, ?_⟩ <;> exact ⟨rfl, rfl, rfl, rfl, rfl, rfl, rfl⟩

open Layers in
/-- C3: `evaluate_expressions` raises `QgsPluginExpressionException`
wrapping the parser error string when the expression has a parser error,
raises one wrapping the evaluation error string when it has (only) an
evaluation error, and otherwise returns the value of evaluating the
expression in the assembled context. -/
theorem layers_evaluate_expressions_spec (layerScope : MapLayer → ContextScope)
    (exp : Expression) (feature : Option Feature) (layer : Option MapLayer)
    (context_scopes : Option (List ContextScope)) :
    (exp.hasParserError = true →
      evaluate_expressions layerScope exp feature layer context_scopes =
        .exc (bar_msg exp.parserErrorString)) ∧
    (exp.hasParserError = false → exp.hasEvalError = true →
      evaluate_expressions layerScope exp feature layer context_scopes =
        .exc (bar_msg exp.evalErrorString)) ∧
    (exp.hasParserError = false → exp.hasEvalError = false →
      evaluate_expressions layerScope exp feature layer context_scopes =
        .ok (exp.evaluate (assemble_context layerScope feature layer context_scopes))) := by
  refine ⟨fun h => by simp [evaluate_expressions, h],
    fun h h2 => by simp [evaluate_expressions, h, h2],
    fun h h2 => by simp [evaluate_expressions, h, h2]⟩

open Layers in
/-- Witness for C3: an expression with a parser error raises the
exception wrapping that parser error string. -/
theorem layers_evaluate_expressions_witness :
    evaluate_expressions (fun _ => ⟨0⟩)
      ⟨true, "syntax error", false, "", fun _ => .none⟩ none none none
      = .exc (bar_msg "syntax error") :=
  (layers_evaluate_expressions_spec (fun _ => ⟨0⟩)
    ⟨true, "syntax error", false, "", fun _ => .none⟩ none none none).1 rfl

open Layers in
/-- C4: for every host `flatType` function and wkb type, the result of
`LayerType.from_wkb_type` is `Point`, `Line` or `Polygon` exactly when
the flat type lies in the corresponding category constant, `Unknown`
otherwise, and the three category constants are pairwise disjoint. -/
theorem layers_layer_type_from_wkb_type_spec (flatType : WkbType → WkbType) (t : WkbType) :
    (LayerType.from_wkb_type flatType t = .Point ↔ flatType t ∈ POINT_TYPES) ∧
    (LayerType.from_wkb_type flatType t = .Line ↔ flatType t ∈ LINE_TYPES) ∧
    (LayerType.from_wkb_type flatType t = .Polygon ↔ flatType t ∈ POLYGON_TYPES) ∧
    (LayerType.from_wkb_type flatType t = .Unknown ↔
      (flatType t ∉ POINT_TYPES ∧ flatType t ∉ LINE_TYPES ∧ flatType t ∉ POLYGON_TYPES)) ∧
    POINT_TYPES.inter LINE_TYPES = [] ∧
    POINT_TYPES.inter POLYGON_TYPES = [] ∧
    LINE_TYPES.inter POLYGON_TYPES = [] := by
  cases h : flatType t <;> simp only [LayerType.from_wkb_type, h] <;> decide

open Layers in
/-- Witness for C4: a flat type of `MultiPoint` yields `Point`. -/
theorem layers_layer_type_from_wkb_type_witness :
    LayerType.from_wkb_type (fun _ => .MultiPoint) .Unknown = .Point :=
  (layers_layer_type_from_wkb_type_spec (fun _ => .MultiPoint) .Unknown).1.mpr (by decide)

open Fields in
/-- C6: `widget_for_field` is total: a check box for `Bool`, a spin box
with maximum `2147483647` for the four integer types, a double spin box
with maximum `2147483647` for `Double`, a date edit for `Date`, a
date-time edit for `DateTime` and `Time`, and an editable combo box for
`String`, `ByteArray` and every type not otherwise listed. -/
theorem fields_widget_for_field_total (t : QVariantType) :
    widget_for_field .Bool = .qCheckBox ∧
    (∀ s ∈ [QVariantType.Int, .UInt, .LongLong, .ULongLong],
      widget_for_field s = .qgsSpinBox 2147483647) ∧
    widget_for_field .Double = .qgsDoubleSpinBox 2147483647 ∧
    widget_for_field .Date = .qDateEdit ∧
    widget_for_field .DateTime = .qgsDateTimeEdit ∧
    widget_for_field .Time = .qgsDateTimeEdit ∧
    widget_for_field .String = .qComboBox true ∧
    widget_for_field .ByteArray = .qComboBox true ∧
    (t ∉ [QVariantType.Bool, .Int, .UInt, .LongLong, .ULongLong, .Double,
        .Date, .DateTime, .Time, .String, .ByteArray] →
      widget_for_field t = .qComboBox true) := by
  refine ⟨by decide, by decide, by decide, by decide, by decide, by decide, by decide,
    by decide, ?_⟩
  intro h
  cases t <;> first
  | rfl
  | exact absurd (by decide) h

open Fields in
/-- Witness for C6: an unlisted type such as `Url` falls to the editable
combo box. -/
theorem fields_widget_for_field_witness :
    widget_for_field .Url = .qComboBox true :=
  (fields_widget_for_field_total .Url).2.2.2.2.2.2.2.2 (by decide)

open Decorations in
/-- C7: the `log_if_fails`-wrapped call never propagates an exception:
it always returns `None`; a `QgsPluginException` is routed to the
message bar with that exception's bar message, any other exception with
the generic unhandled-exception message. -/
theorem decorations_log_if_fails_spec (fn : List PyVal → CallResult) (args : List PyVal) :
    (∃ m, log_if_fails fn args = .normal m) ∧
    (∀ bm, fn (effective_args args) = .raisePlugin bm →
      log_if_fails fn args = .normal (some (.exceptionWithBarMsg bm))) ∧
    (∀ d, fn (effective_args args) = .raiseOther d →
      log_if_fails fn args = .normal (some (.unhandled (tr "Unhandled exception occurred") d))) ∧
    (fn (effective_args args) = .ok → log_if_fails fn args = .normal none) := by
  unfold log_if_fails
  cases h : fn (effective_args args) with
  | ok => exact ⟨⟨none, rfl⟩, fun bm hbm => CallResult.noConfusion hbm,
      fun d hd => CallResult.noConfusion hd, fun _ => rfl⟩
  | raisePlugin bm => exact ⟨⟨some (.exceptionWithBarMsg bm), rfl⟩,
      fun bm' hbm => by cases hbm; rfl,
      fun d hd => CallResult.noConfusion hd, fun hok => CallResult.noConfusion hok⟩
  | raiseOther d => exact ⟨⟨some (.unhandled (tr "Unhandled exception occurred") d), rfl⟩,
      fun bm hbm => CallResult.noConfusion hbm,
      fun d' hd => by cases hd; rfl, fun hok => CallResult.noConfusion hok⟩

open Decorations in
/-- Witness for C7: a function raising a plugin exception is routed to
the message bar with its own bar message, and the wrapper returns
`None`. -/
theorem decorations_log_if_fails_witness :
    log_if_fails (fun _ => .raisePlugin (bar_msg "boom")) []
      = .normal (some (.exceptionWithBarMsg (bar_msg "boom"))) :=
  (decorations_log_if_fails_spec (fun _ => .raisePlugin (bar_msg "boom")) []).2.1
    (bar_msg "boom") rfl

namespace ListFields

theorem selection_set_selection (v : ListFieldsSelection) (S : List String) :
    selection (set_selection v S) =
      (v.items.map ListItem.userData).filter (fun n => S.contains n) := by
  unfold selection set_selection
  dsimp only
  rw [List.filter_map, List.filter_map, List.map_map]
  rfl

end ListFields

open ListFields in
/-- C10: after `set_layer` populates the widget from a layer,
`set_selection S` followed by `selection ()` returns exactly the field
names stored as the items' user-role data that are members of `S`, in
item (field) order; `set_selection` changes nothing but the selected
flags. -/
theorem widgets_list_fields_selection_spec (iconForField : Int → Nat)
    (w : ListFieldsSelection) (layer : VectorLayer) (S : List String) :
    selection (set_selection (set_layer iconForField w layer) S) =
      (layer.fields.map QgsField.name).filter (fun n => S.contains n) ∧
    (∀ v : ListFieldsSelection,
      (set_selection v S).items.map itemRest = v.items.map itemRest ∧
      (set_selection v S).layer = v.layer) := by
  constructor
  · rw [selection_set_selection]
    unfold set_layer
    dsimp only
    rw [List.map_map]
    exact congrArg _ (List.map_congr_left fun f _ => rfl)
  · intro v
    refine ⟨?_, rfl⟩
    unfold set_selection itemRest
    dsimp only
    rw [List.map_map]
    exact List.map_congr_left fun item _ => rfl

open Network in
/-- C5: `download_to_file` takes the `requests` branch exactly when
`use_requests_if_available` holds and `requests` is importable, the
`fetch_raw` branch otherwise; for the same url, output name, content
bytes and extracted `Content-Disposition` filename, both branches build
the output path with the same `get_output`, write the response bytes
there and return it; and `get_output` computes the spec's rule —
`output_name` if given, else the non-empty header filename, else a name
derived from the url. -/
theorem network_download_to_file_refinement (env : Env)
    (decode : String → List Nat → String) (resp : HttpResponse) (reply : Reply)
    (url : String) (output_dir : String) (output_name : Option String)
    (use_requests_if_available : Bool) (encoding : String) :
    ((use_requests_if_available && env.REQUESTS_IS_AVAILABLE) = true →
      download_to_file env decode resp reply url output_dir output_name
        use_requests_if_available encoding =
        download_requests_branch url output_dir output_name resp) ∧
    ((use_requests_if_available && env.REQUESTS_IS_AVAILABLE) = false →
      download_to_file env decode resp reply url output_dir output_name
        use_requests_if_available encoding =
        download_fetch_branch decode reply url output_dir output_name encoding) ∧
    (resp.statusOk = true →
      download_requests_branch url output_dir output_name resp =
        .written (get_output url output_dir output_name
          ((findall_filename (resp.contentDisposition.getD "")).headD "")) resp.content) ∧
    (∀ d c, request_raw decode reply encoding = .ok c d →
      download_fetch_branch decode reply url output_dir output_name encoding =
        .written (get_output url output_dir output_name d) c) ∧
    (∀ u dir oname d, get_output u dir oname d = spec_output_path url_derived_name u dir oname d) := by
  refine ⟨fun h => by simp [download_to_file, h],
    fun h => by simp [download_to_file, h], fun h => by simp [download_requests_branch, h],
    ?_, ?_⟩
  · intro d c hr
    unfold download_fetch_branch fetch_raw
    rw [hr]
  · intro u dir oname d
    cases oname <;> rfl

open Network in
/-- Witness for C5: the `fetch_raw` branch on a reply without a header
writes the content bytes to the path `get_output` computes. -/
theorem network_download_to_file_witness :
    download_fetch_branch decodeASCII ⟨0, "", [7], none⟩ "http://x.io/file.bin" "/tmp"
      none ENCODING = .written (get_output "http://x.io/file.bin" "/tmp" none "") [7] :=
  (network_download_to_file_refinement ⟨true⟩ decodeASCII ⟨true, 200, "", none, []⟩
      ⟨0, "", [7], none⟩ "http://x.io/file.bin" "/tmp" none true ENCODING).2.2.2.1
    "" [7] (by decide)

end QgsPluginTools
